import Mathlib

/-!
Shallow embedding of `RolesPage.component.tsx` (OpenMetadata UI, RolesPage):
the data model (Role, Policy, Rule), the two form-validation functions, and
the page's fetch / mutation handlers, modelled as pure state transformers.
Async endpoint calls are modelled by passing the call's outcome (`Except`)
into an explicit "resolve" continuation; the synchronous part of each handler
is a separate function.  JS objects used as field-to-message maps are
modelled as association lists built in object-insertion order.
-/

set_option autoImplicit false

namespace RolesPage

/-- `EntityReference` from `generated/entity/teams/user`: only the fields the
page touches. -/
structure EntityReference where
  id : String
  name : Option String := none
  displayName : Option String := none
deriving Repr, DecidableEq

/-- `Role` from `generated/entity/teams/role`: optional fields are `Option`,
matching the TS `?:` markers. -/
structure Role where
  id : String := ""
  name : String
  displayName : Option String := none
  description : Option String := none
  policy : Option EntityReference := none
  users : List EntityReference := []
deriving Repr, DecidableEq

/-- `Rule` from `generated/entity/policies/accessControl/rule`.  The
`operation` enum is a string in TS (the add-rule modal seeds it with `''`),
so it is a `String` here; JS truthiness of `operation` is `≠ ""`. -/
structure Rule where
  name : String
  operation : String
  allow : Bool := false
  enabled : Bool := false
  userRoleAttr : Option String := none
deriving Repr, DecidableEq

/-- `Policy` from `./policy.interface`: the fields the page reads and
resubmits wholesale. -/
structure Policy where
  name : String
  policyType : String
  rules : List Rule
deriving Repr, DecidableEq

/-- `FormErrorData`: a JS object mapping field names to messages, modelled as
an association list in insertion order. -/
abbrev FormErrorData := List (String × String)

/-- lodash `toLower` (JS `toLowerCase`), modelled character-wise so it is
kernel-computable. -/
def jsToLower (s : String) : String := String.mk (s.data.map Char.toLower)

/-- JS `String.prototype.trim`: strip leading and trailing whitespace,
modelled character-wise. -/
def jsTrim (s : String) : String :=
  String.mk
    (((s.data.dropWhile Char.isWhitespace).reverse.dropWhile Char.isWhitespace).reverse)

/-- Body of `onNewDataChange` once the gate is passed: the JS `errData`
object.  The `name` if-chain inserts first, then the `displayName` if-chain;
`roles.find` with lodash `toLower` is `List.find?` with `String.toLower`. -/
def computeRoleErrData (roles : List Role) (data : Role) : FormErrorData :=
  let nameErrs :=
    if jsTrim data.name = "" then
      [("name", "Name is required")]
    else if (roles.find? (fun item => jsToLower item.name == jsToLower data.name)).isSome then
      [("name", "Name already exists")]
    else if data.name.length < 1 || data.name.length > 128 then
      [("name", "Name size must be between 1 and 128")]
    else []
  let displayNameErrs :=
    if (match data.displayName with
        | none => true
        | some d => jsTrim d == "") then
      [("displayName", "Display name is required")]
    else if (data.displayName.getD "").length < 1 || (data.displayName.getD "").length > 128 then
      [("displayName", "Display name size must be between 1 and 128")]
    else []
  nameErrs ++ displayNameErrs

/-- `onNewDataChange(data, forceSet)`.  The component state read is
`errorData : FormErrorData | undefined`; any object (even `{}`) is truthy, so
the JS gate `errorData || forceSet` is `errorData.isSome || forceSet`.
Returns the returned mapping together with the `errorData` state after the
call (`setErrorData` runs only inside the gate). -/
def onNewDataChange (errorData : Option FormErrorData) (roles : List Role)
    (data : Role) (forceSet : Bool) : FormErrorData × Option FormErrorData :=
  if errorData.isSome || forceSet then
    let errData := computeRoleErrData roles data
    (errData, some errData)
  else
    ([], errorData)

/-- Body of `validateRuleData` once the gate is passed: `operation` must be
truthy. -/
def computeRuleErrData (data : Rule) : FormErrorData :=
  if data.operation = "" then [("operation", "Operation is required.")] else []

/-- `validateRuleData(data, forceSet)`, same gate as `onNewDataChange`. -/
def validateRuleData (errorData : Option FormErrorData) (data : Rule)
    (forceSet : Bool) : FormErrorData × Option FormErrorData :=
  if errorData.isSome || forceSet then
    let errData := computeRuleErrData data
    (errData, some errData)
  else
    ([], errorData)

/-- The pre-existing role of the spec's scenario. -/
def adminRole : Role := { name := "admin", displayName := some "Admin" }

/-- The candidate role of the spec's scenario. -/
def newAdminRole : Role := { name := "Admin", displayName := some "X" }

/-- A candidate role failing every validation rule (blank name, no display
name). -/
def blankRole : Role := { name := "" }

/-- A candidate role passing role validation against an empty role list. -/
def okRole : Role := { name := "ok", displayName := some "Ok" }

theorem find?_isSome_of_mem {α : Type} {p : α → Bool} {l : List α} {x : α}
    (hx : x ∈ l) (hp : p x = true) : (l.find? p).isSome = true := by
  induction l with
  | nil => cases hx
  | cons a as ih =>
    rcases List.mem_cons.mp hx with h | h
    · subst h
      simp [List.find?, hp]
    · by_cases ha : p a
      · simp [List.find?, ha]
      · simpa [List.find?, ha] using ih h

/-- C1: with `errorData` undefined and `forceSet` false, both validation
functions return the empty mapping (and leave `errorData` untouched) for
arbitrary input; when a prior error state exists or the force flag is set,
they evaluate the validation rules (`computeRoleErrData` /
`computeRuleErrData`). -/
theorem validation_short_circuit (roles : List Role) (data : Role) (rule : Rule) :
    onNewDataChange none roles data false = ([], none) ∧
    validateRuleData none rule false = ([], none) ∧
    (∀ e : FormErrorData,
      onNewDataChange (some e) roles data false =
        (computeRoleErrData roles data, some (computeRoleErrData roles data)) ∧
      validateRuleData (some e) rule false =
        (computeRuleErrData rule, some (computeRuleErrData rule))) ∧
    (∀ ed : Option FormErrorData,
      onNewDataChange ed roles data true =
        (computeRoleErrData roles data, some (computeRoleErrData roles data)) ∧
      validateRuleData ed rule true =
        (computeRuleErrData rule, some (computeRuleErrData rule))) := by
  refine ⟨rfl, rfl, fun e => ⟨rfl, rfl⟩, fun ed => ⟨?_, ?_⟩⟩ <;>
    simp [onNewDataChange, validateRuleData]

/-- C2: whenever role validation actually executes (prior error state or
`forceSet`), a candidate whose name is blank after trimming, or collides
case-insensitively with a loaded role's name, gets a non-empty `name` error;
in the spec's scenario (`admin` loaded, candidate `Admin`) the message is
`Name already exists`. -/
theorem name_validation_errors :
    (∀ (ed : Option FormErrorData) (roles : List Role) (data : Role) (force : Bool),
      ed.isSome = true ∨ force = true →
      (jsTrim data.name = "" ∨
        ∃ item ∈ roles, jsToLower item.name = jsToLower data.name) →
      ∃ msg, ((onNewDataChange ed roles data force).1).lookup "name" = some msg ∧
        msg ≠ "") ∧
    ((onNewDataChange none [adminRole] newAdminRole true).1).lookup "name" =
      some "Name already exists" := by
  constructor
  · intro ed roles data force hgate hname
    have hcond : (ed.isSome || force) = true := by
      rcases hgate with h | h <;> simp [h]
    rw [onNewDataChange, if_pos hcond]
    rcases hname with hblank | ⟨item, hmem, heq⟩
    · refine ⟨"Name is required", ?_, by decide⟩
      simp [computeRoleErrData, hblank]
    · by_cases hblank : jsTrim data.name = ""
      · refine ⟨"Name is required", ?_, by decide⟩
        simp [computeRoleErrData, hblank]
      · have hfind : (roles.find?
            (fun item => jsToLower item.name == jsToLower data.name)).isSome = true :=
          find?_isSome_of_mem hmem (by simpa using heq)
        refine ⟨"Name already exists", ?_, by decide⟩
        simp [computeRoleErrData, hblank, hfind]
  · decide

/-- Witness for C2 at the spec's concrete scenario. -/
theorem name_validation_errors_witness :
    ((none : Option FormErrorData).isSome = true ∨ true = true) ∧
    (jsTrim newAdminRole.name = "" ∨
      ∃ item ∈ [adminRole], jsToLower item.name = jsToLower newAdminRole.name) ∧
    (∃ msg, ((onNewDataChange none [adminRole] newAdminRole true).1).lookup "name" =
      some msg ∧ msg ≠ "") :=
  ⟨Or.inr rfl, Or.inr ⟨adminRole, by decide, by decide⟩,
    name_validation_errors.1 none [adminRole] newAdminRole true (Or.inr rfl)
      (Or.inr ⟨adminRole, by decide, by decide⟩)⟩

/-- The pairs `{ rule, state }` held in `deletingRule` / `editingRule`. -/
structure RuleFlag where
  rule : Option Rule
  state : Bool
deriving Repr, DecidableEq

/-- The component's local state: one field per `useState` hook. -/
structure PageState where
  roles : List Role
  currentRole : Option Role
  currentPolicy : Option Policy
  error : String
  currentTab : Nat
  isLoading : Bool
  isLoadingPolicy : Bool
  isAddingRole : Bool
  isAddingRule : Bool
  errorData : Option FormErrorData
  isEditable : Bool
  deletingRule : RuleFlag
  editingRule : RuleFlag
deriving Repr, DecidableEq

/-- The initial values of the `useState` hooks. -/
def initialState : PageState where
  roles := []
  currentRole := none
  currentPolicy := none
  error := ""
  currentTab := 1
  isLoading := false
  isLoadingPolicy := false
  isAddingRole := false
  isAddingRule := false
  errorData := none
  isEditable := false
  deletingRule := ⟨none, false⟩
  editingRule := ⟨none, false⟩

/-- The replacement policy `deleteRule` submits to `updatePolicy`: the rules
kept are those with `rule.operation !== data.operation`. -/
def deleteRuleUpdatedPolicy (currentPolicy : Policy) (data : Rule) : Policy where
  name := currentPolicy.name
  policyType := currentPolicy.policyType
  rules := currentPolicy.rules.filter (fun rule => rule.operation != data.operation)

/-- The rules list `onRuleUpdate` builds: every rule whose `name` equals the
incoming rule's `name` is replaced by the incoming rule. -/
def onRuleUpdateRules (currentRules : List Rule) (data : Rule) : List Rule :=
  currentRules.map (fun rule => if rule.name = data.name then data else rule)

/-- The replacement policy `onRuleUpdate` submits to `updatePolicy`. -/
def onRuleUpdateUpdatedPolicy (currentPolicy : Policy) (data : Rule) : Policy where
  name := currentPolicy.name
  policyType := currentPolicy.policyType
  rules := onRuleUpdateRules currentPolicy.rules data

/-- The rule object the enable/disable switch passes to `onRuleUpdate`:
`{ ...rule, enabled: !rule.enabled }`. -/
def toggleEnabled (rule : Rule) : Rule := { rule with enabled := !rule.enabled }

/-- Toggling `rule`'s switch: the policy submitted by the resulting
`onRuleUpdate` call. -/
def toggleRuleSubmit (currentPolicy : Policy) (rule : Rule) : Policy :=
  onRuleUpdateUpdatedPolicy currentPolicy (toggleEnabled rule)

/-- The argument object of the `createRole` endpoint call. -/
structure CreateRolePayload where
  description : Option String
  name : String
  displayName : Option String
deriving Repr, DecidableEq

/-- Outcome of the `createRole` endpoint call: `success` carries the JS
truthiness of `res.data`; `failure` carries `error.message`. -/
inductive CreateRoleOutcome where
  | success (resData : Bool)
  | failure (message : Option String)
deriving Repr, DecidableEq

/-- What one run of `createNewRole` produces: the state afterwards, the
endpoint payload (`none` when the endpoint was not called), the toasts
shown, and whether `fetchRoles` was triggered. -/
structure CreateRoleResult where
  state : PageState
  payload : Option CreateRolePayload
  toasts : List String
  refetchRoles : Bool
deriving Repr, DecidableEq

/-- `createNewRole(data)` run to completion with the endpoint outcome given:
validates with `forceSet = true`; calls `createRole` only when the error
mapping is empty; on a response with data refetches the role list; on failure
toasts `error.message ?? 'Something went wrong!'`; `setIsAddingRole(false)`
runs in the promise's `finally`, hence only when the endpoint was called. -/
def createNewRoleRun (s : PageState) (data : Role) (outcome : CreateRoleOutcome) :
    CreateRoleResult :=
  let step := onNewDataChange s.errorData s.roles data true
  let s1 := { s with errorData := step.2 }
  if step.1.length = 0 then
    match outcome with
    | .success resData =>
        { state := { s1 with isAddingRole := false },
          payload := some ⟨data.description, data.name, data.displayName⟩,
          toasts := [], refetchRoles := resData }
    | .failure message =>
        { state := { s1 with isAddingRole := false },
          payload := some ⟨data.description, data.name, data.displayName⟩,
          toasts := [message.getD "Something went wrong!"],
          refetchRoles := false }
  else
    { state := s1, payload := none, toasts := [], refetchRoles := false }

/-- C3: deleting rule `data` submits a replacement policy (same name and
policyType) whose rules are exactly those of the current policy whose
`operation` differs from `data.operation` — matching by operation, not by
name, so every rule sharing the operation is removed. -/
theorem delete_rule_filters_by_operation (p : Policy) (data : Rule) :
    (deleteRuleUpdatedPolicy p data).name = p.name ∧
    (deleteRuleUpdatedPolicy p data).policyType = p.policyType ∧
    (deleteRuleUpdatedPolicy p data).rules =
      p.rules.filter (fun rule => rule.operation != data.operation) ∧
    (∀ q : Rule, q ∈ (deleteRuleUpdatedPolicy p data).rules ↔
      q ∈ p.rules ∧ q.operation ≠ data.operation) := by
  refine ⟨rfl, rfl, rfl, fun q => ?_⟩
  simp [deleteRuleUpdatedPolicy, List.mem_filter, bne_iff_ne]

/-- C4: toggling rule `r`'s switch submits a full replacement policy: same
name and policyType, same number of rules, and, position by position, each
rule whose name equals `r.name` is replaced by `r` with only `enabled`
negated (all other fields equal), while every rule whose name differs is
unchanged. -/
theorem toggle_rule_replaces_by_name (p : Policy) (r : Rule) :
    (toggleRuleSubmit p r).name = p.name ∧
    (toggleRuleSubmit p r).policyType = p.policyType ∧
    (toggleRuleSubmit p r).rules.length = p.rules.length ∧
    ((toggleEnabled r).name = r.name ∧
      (toggleEnabled r).operation = r.operation ∧
      (toggleEnabled r).allow = r.allow ∧
      (toggleEnabled r).userRoleAttr = r.userRoleAttr ∧
      (toggleEnabled r).enabled = !r.enabled) ∧
    (∀ (i : Nat) (q : Rule), p.rules.get? i = some q →
      (toggleRuleSubmit p r).rules.get? i =
        some (if q.name = r.name then toggleEnabled r else q)) := by
  refine ⟨rfl, rfl, ?_, ⟨rfl, rfl, rfl, rfl, rfl⟩, fun i q hq => ?_⟩
  · simp [toggleRuleSubmit, onRuleUpdateUpdatedPolicy, onRuleUpdateRules]
  · simp only [toggleRuleSubmit, onRuleUpdateUpdatedPolicy, onRuleUpdateRules]
    rw [List.get?_eq_getElem?, List.getElem?_map, ← List.get?_eq_getElem?, hq]
    rfl

/-- Witness for C4: a two-rule policy where only the name-matching rule is
replaced, with `enabled` flipped. -/
theorem toggle_rule_replaces_by_name_witness :
    ([⟨"p-r1", "UpdateDescription", true, true, none⟩,
      ⟨"p-r2", "UpdateTags", true, false, none⟩] : List Rule).get? 0 =
        some ⟨"p-r1", "UpdateDescription", true, true, none⟩ ∧
    (toggleRuleSubmit ⟨"p", "AccessControl",
        [⟨"p-r1", "UpdateDescription", true, true, none⟩,
         ⟨"p-r2", "UpdateTags", true, false, none⟩]⟩
      ⟨"p-r1", "UpdateDescription", true, true, none⟩).rules.get? 0 =
      some (if ("p-r1" : String) = "p-r1"
        then toggleEnabled ⟨"p-r1", "UpdateDescription", true, true, none⟩
        else ⟨"p-r1", "UpdateDescription", true, true, none⟩) :=
  ⟨rfl,
    (toggle_rule_replaces_by_name
      ⟨"p", "AccessControl",
        [⟨"p-r1", "UpdateDescription", true, true, none⟩,
         ⟨"p-r2", "UpdateTags", true, false, none⟩]⟩
      ⟨"p-r1", "UpdateDescription", true, true, none⟩).2.2.2.2 0
      ⟨"p-r1", "UpdateDescription", true, true, none⟩ rfl⟩

/-- C5: when role creation validates (with force) to a non-empty error
mapping, the create endpoint is not called. -/
theorem invalid_role_blocks_create (s : PageState) (data : Role)
    (outcome : CreateRoleOutcome)
    (h : (onNewDataChange s.errorData s.roles data true).1 ≠ []) :
    (createNewRoleRun s data outcome).payload = none := by
  have hlen : ¬((onNewDataChange s.errorData s.roles data true).1.length = 0) := by
    simpa [List.length_eq_zero] using h
  simp [createNewRoleRun, hlen]

/-- Witness for C5: a blank-name candidate submitted from the initial
state. -/
theorem invalid_role_blocks_create_witness :
    (onNewDataChange initialState.errorData initialState.roles blankRole true).1 ≠ [] ∧
    (createNewRoleRun initialState blankRole (.success true)).payload = none :=
  ⟨by decide,
    invalid_role_blocks_create initialState blankRole (.success true) (by decide)⟩

/-- C6 counterexample: a validation-failing submission leaves the "adding
role" modal open — `setIsAddingRole(false)` lives in the promise's `finally`,
which never runs when the endpoint is not called. -/
theorem create_role_modal_counterexample :
    (createNewRoleRun { initialState with isAddingRole := true } blankRole
      (.success true)).state.isAddingRole = true := by
  decide

/-- C6 (amended): when forced validation returns no errors, the handler calls
the endpoint and ends with the modal flag false whatever the endpoint
outcome, the roles state is left unchanged by the handler itself (no local
append), and a successful response with data triggers a refetch of the role
list; when validation fails, the endpoint is not called and the modal flag is
left as it was. -/
theorem create_role_modal_amended (s : PageState) (data : Role)
    (outcome : CreateRoleOutcome) :
    ((onNewDataChange s.errorData s.roles data true).1 = [] →
      (createNewRoleRun s data outcome).state.isAddingRole = false ∧
      (createNewRoleRun s data outcome).payload ≠ none ∧
      (createNewRoleRun s data outcome).state.roles = s.roles ∧
      (createNewRoleRun s data (.success true)).refetchRoles = true) ∧
    ((onNewDataChange s.errorData s.roles data true).1 ≠ [] →
      (createNewRoleRun s data outcome).payload = none ∧
      (createNewRoleRun s data outcome).state.isAddingRole = s.isAddingRole ∧
      (createNewRoleRun s data outcome).state.roles = s.roles) := by
  constructor
  · intro h
    have hlen : (onNewDataChange s.errorData s.roles data true).1.length = 0 := by
      simp [h]
    cases outcome <;> simp [createNewRoleRun, hlen]
  · intro h
    have hlen : ¬((onNewDataChange s.errorData s.roles data true).1.length = 0) := by
      simpa [List.length_eq_zero] using h
    simp [createNewRoleRun, hlen]

/-- Witness for C6 (amended): a valid candidate from the initial state, with
the endpoint failing. -/
theorem create_role_modal_amended_witness :
    (onNewDataChange initialState.errorData initialState.roles okRole true).1 = [] ∧
    ((createNewRoleRun initialState okRole (.failure none)).state.isAddingRole = false ∧
      (createNewRoleRun initialState okRole (.failure none)).payload ≠ none ∧
      (createNewRoleRun initialState okRole (.failure none)).state.roles =
        initialState.roles ∧
      (createNewRoleRun initialState okRole (.success true)).refetchRoles = true) :=
  ⟨by decide,
    (create_role_modal_amended initialState okRole (.failure none)).1 (by decide)⟩

/-- `fetchPolicy`'s synchronous prefix: `setIsLoadingPolicy(true)`. -/
def fetchPolicyStart (s : PageState) : PageState := { s with isLoadingPolicy := true }

/-- `fetchPolicy`'s continuation on the `getPolicy` outcome: `then` stores
the policy, `catch` toasts, `finally` clears the loading flag. -/
def fetchPolicyResolve (s : PageState) (res : Except Unit Policy) :
    PageState × List String :=
  match res with
  | .ok p => ({ s with currentPolicy := some p, isLoadingPolicy := false }, [])
  | .error _ => ({ s with isLoadingPolicy := false }, ["Error while getting policy"])

/-- `fetchRoles`'s synchronous prefix: `setIsLoading(true)`. -/
def fetchRolesStart (s : PageState) : PageState := { s with isLoading := true }

/-- `fetchRoles`'s continuation: `then` stores the list and makes its first
element (JS `data[0]`, `undefined` on an empty array) current; `catch` sets
the page error and toasts; `finally` clears the loading flag. -/
def fetchRolesResolve (s : PageState) (res : Except Unit (List Role)) :
    PageState × List String :=
  match res with
  | .ok data =>
      ({ s with roles := data, currentRole := data.head?, isLoading := false }, [])
  | .error _ =>
      ({ s with error := "Error while getting roles", isLoading := false },
        ["Error while getting roles"])

/-- The `ERROR404` constant imported from `constants/constants` (a module
outside the sources at hand); only its identity matters to the page. -/
def ERROR404 : String := "ERROR404"

/-- Guard of `fetchCurrentRole(name, update)`:
`currentRole?.name !== name || update`. -/
def fetchCurrentRoleGuard (s : PageState) (name : String) (update : Bool) : Bool :=
  (s.currentRole.map Role.name != some name) || update

/-- `fetchCurrentRole`'s synchronous prefix: under the guard, set the loading
flag and issue the `getRoleByName` call (the returned `Bool`). -/
def fetchCurrentRoleStart (s : PageState) (name : String) (update : Bool) :
    PageState × Bool :=
  if fetchCurrentRoleGuard s name update then ({ s with isLoading := true }, true)
  else (s, false)

/-- `fetchCurrentRole`'s continuation: `then` stores the role and, when the
roles list was empty, triggers `fetchRoles` (the returned `Bool`); `catch`
shows no toast and sets the page error only when the error payload carries a
code; `finally` clears the loading flag. -/
def fetchCurrentRoleResolve (s : PageState) (res : Except Bool Role) :
    PageState × List String × Bool :=
  match res with
  | .ok role =>
      ({ s with currentRole := some role, isLoading := false }, [],
        decide (s.roles.length ≤ 0))
  | .error hasCode =>
      (if hasCode then { s with error := ERROR404, isLoading := false }
       else { s with isLoading := false }, [], false)

/-- `onDescriptionUpdate(updatedHTML)`'s synchronous part: when
`currentRole?.description !== updatedHTML` it issues the `updateRole` patch
call (the returned `Bool`); either way it exits edit mode immediately. -/
def onDescriptionUpdateSync (s : PageState) (updatedHTML : String) :
    PageState × Bool :=
  if s.currentRole.bind Role.description ≠ some updatedHTML then
    ({ s with isEditable := false }, true)
  else
    ({ s with isEditable := false }, false)

/-- `onDescriptionUpdate`'s continuation on the `updateRole` outcome: a
fulfilled response with data triggers `fetchCurrentRole(res.data.name, true)`
(the returned option); the promise has no `catch` and no `finally`, so a
failure changes nothing and shows no toast. -/
def onDescriptionUpdateResolve (s : PageState) (res : Except Unit (Option Role)) :
    PageState × List String × Option (String × Bool) :=
  match res with
  | .ok (some role) => (s, [], some (role.name, true))
  | .ok none => (s, [], none)
  | .error _ => (s, [], none)

/-- C7 counterexample: the `updateRole` call of the description update has no
error handler — on failure no toast is shown (and there is no cleanup
clause), refuting "a one-shot error toast is shown" for every network
operation of the page. -/
theorem failure_toast_counterexample :
    onDescriptionUpdateResolve initialState (Except.error ()) =
      (initialState, [], none) := rfl

/-- C7 (amended): `fetchPolicy` failure toasts once, clears its loading flag
via `finally`, and leaves all other state unchanged; `fetchRoles` failure
toasts once and clears loading but also sets the page error string;
`fetchCurrentRole` failure shows no toast, clears loading via `finally`, and
sets the page error exactly when the payload carries a code; the description
update's `updateRole` call has no error handler or cleanup clause, so its
failure changes nothing and shows nothing. -/
theorem failure_handling_amended (s : PageState) :
    fetchPolicyResolve s (Except.error ()) =
      ({ s with isLoadingPolicy := false }, ["Error while getting policy"]) ∧
    fetchRolesResolve s (Except.error ()) =
      ({ s with error := "Error while getting roles", isLoading := false },
        ["Error while getting roles"]) ∧
    fetchCurrentRoleResolve s (Except.error true) =
      ({ s with error := ERROR404, isLoading := false }, [], false) ∧
    fetchCurrentRoleResolve s (Except.error false) =
      ({ s with isLoading := false }, [], false) ∧
    onDescriptionUpdateResolve s (Except.error ()) = (s, [], none) :=
  ⟨rfl, rfl, rfl, rfl, rfl⟩

/-- The dependent effect on `currentRole`: when a role is current it issues
exactly one `getPolicy` fetch for `currentRole?.policy?.id`. -/
def currentRoleEffectFetches (newRole : Option Role) : List (Option String) :=
  match newRole with
  | some r => [r.policy.map EntityReference.id]
  | none => []

/-- Clicking a role in the left panel: `setCurrentRole(role)`. -/
def selectRole (s : PageState) (role : Role) : PageState :=
  { s with currentRole := some role }

/-- A role change followed by its policy fetch resolving (sequential model:
the fetch completes before the next change), against a server mapping policy
ids to policies. -/
def roleChangeAndResolve (s : PageState) (role : Role)
    (server : Option String → Policy) : PageState :=
  let s1 := selectRole s role
  match currentRoleEffectFetches s1.currentRole with
  | [pid] => (fetchPolicyResolve (fetchPolicyStart s1) (Except.ok (server pid))).1
  | _ => s1

/-- C8: the current role is a single optional state cell, so at most one role
is current; a change of current role issues exactly one policy fetch, keyed
on the new role's policy id; and, in the sequential model where each fetch
resolves before the next change, the resolved policy state is the server's
policy for exactly that id. -/
theorem current_role_policy_invariant (s : PageState) (role : Role)
    (server : Option String → Policy) :
    currentRoleEffectFetches (some role) = [role.policy.map EntityReference.id] ∧
    (currentRoleEffectFetches (some role)).length = 1 ∧
    currentRoleEffectFetches none = [] ∧
    (roleChangeAndResolve s role server).currentRole = some role ∧
    (roleChangeAndResolve s role server).currentPolicy =
      some (server (role.policy.map EntityReference.id)) := by
  refine ⟨rfl, rfl, rfl, ?_, ?_⟩ <;>
    simp [roleChangeAndResolve, selectRole, currentRoleEffectFetches,
      fetchPolicyStart, fetchPolicyResolve]

/-- C9: the description-update handler exits edit mode synchronously (before
the response resolves) and its continuation never changes state regardless of
outcome, so edit mode stays exited on failure; the patch endpoint is called
iff the edited HTML differs from the current role's description (an unchanged
description only exits edit mode). -/
theorem description_update_contract (s : PageState) (updatedHTML : String) :
    (onDescriptionUpdateSync s updatedHTML).1 = { s with isEditable := false } ∧
    ((onDescriptionUpdateSync s updatedHTML).2 = true ↔
      s.currentRole.bind Role.description ≠ some updatedHTML) ∧
    (∀ res, (onDescriptionUpdateResolve s res).1 = s) := by
  refine ⟨?_, ?_, fun res => ?_⟩
  · by_cases h : s.currentRole.bind Role.description ≠ some updatedHTML <;>
      simp [onDescriptionUpdateSync, h]
  · by_cases h : s.currentRole.bind Role.description ≠ some updatedHTML <;>
      simp [onDescriptionUpdateSync, h]
  · cases res with
    | ok r => cases r <;> rfl
    | error e => rfl

/-- The events touching the `errorData` cell: the two modal-open button
handlers (each runs `setErrorData(undefined)` first) and the two validation
callbacks. -/
inductive VEvent where
  | openAddRole
  | openAddRule
  | vRole (data : Role) (force : Bool)
  | vRule (data : Rule) (force : Bool)
deriving Repr, DecidableEq

/-- One step of the `errorData` cell: the state after the event, paired with
the mapping the event returned (`[]` for the open handlers, which return
nothing). -/
def vStep (roles : List Role) (ed : Option FormErrorData) (e : VEvent) :
    Option FormErrorData × FormErrorData :=
  match e with
  | .openAddRole => (none, [])
  | .openAddRule => (none, [])
  | .vRole data force =>
      let r := onNewDataChange ed roles data force
      (r.2, r.1)
  | .vRule data force =>
      let r := validateRuleData ed data force
      (r.2, r.1)

/-- Run a list of events over the `errorData` cell. -/
def runV (roles : List Role) (ed : Option FormErrorData) :
    List VEvent → Option FormErrorData
  | [] => ed
  | e :: es => runV roles (vStep roles ed e).1 es

/-- The mappings returned along a run. -/
def runVOutputs (roles : List Role) (ed : Option FormErrorData) :
    List VEvent → List FormErrorData
  | [] => []
  | e :: es => (vStep roles ed e).2 :: runVOutputs roles (vStep roles ed e).1 es

/-- An event that cannot end the short-circuit: an open handler or a
validation with `forceSet = false`. -/
def nonForced : VEvent → Bool
  | .vRole _ force => !force
  | .vRule _ force => !force
  | _ => true

/-- The `onClick` of the add-role buttons: `setErrorData(undefined)` then
`setIsAddingRole(true)`. -/
def openAddRoleHandler (s : PageState) : PageState :=
  { s with errorData := none, isAddingRole := true }

/-- The `onClick` of the add-rule button: `setErrorData(undefined)` then
`setIsAddingRule(true)`. -/
def openAddRuleHandler (s : PageState) : PageState :=
  { s with errorData := none, isAddingRule := true }

/-- A blank candidate rule (the add-rule modal's initial data). -/
def blankRule : Rule := { name := "", operation := "" }

/-- A sample run of only non-forced events. -/
def sampleEvents : List VEvent :=
  [.openAddRole, .vRole blankRole false, .vRule blankRule false]

theorem runV_nonForced (roles : List Role) :
    ∀ evts : List VEvent, (∀ e ∈ evts, nonForced e = true) →
      runV roles none evts = none ∧ ∀ o ∈ runVOutputs roles none evts, o = [] := by
  intro evts
  induction evts with
  | nil => exact fun _ => ⟨rfl, fun o ho => absurd ho (List.not_mem_nil o)⟩
  | cons e es ih =>
    intro hall
    have he := hall e (List.mem_cons_self e es)
    have hstep : vStep roles none e = (none, []) := by
      cases e with
      | openAddRole => rfl
      | openAddRule => rfl
      | vRole data force =>
        cases force with
        | false => rfl
        | true => exact Bool.noConfusion he
      | vRule data force =>
        cases force with
        | false => rfl
        | true => exact Bool.noConfusion he
    have hes := ih (fun x hx => hall x (List.mem_cons_of_mem e hx))
    constructor
    · show runV roles (vStep roles none e).1 es = none
      rw [hstep]
      exact hes.1
    · intro o ho
      simp only [runVOutputs, hstep] at ho
      rcases List.mem_cons.mp ho with h | h
      · exact h
      · exact hes.2 o h

/-- C10 counterexample: after opening the modal, a forced validation that
finds no errors records the *empty* mapping as the error state; the very next
non-forced validation then evaluates and returns a non-empty mapping — so the
short-circuit ends as soon as any forced validation runs, not only once a
non-empty error state is recorded. -/
theorem error_reset_counterexample :
    vStep [] (openAddRoleHandler initialState).errorData (.vRole okRole true) =
      (some [], []) ∧
    (vStep [] (some []) (.vRole blankRole false)).2 ≠ [] := by
  constructor
  · decide
  · decide

/-- C10 (amended): every modal-open handler first resets `errorData` to
undefined; from that state, any sequence of non-forced events keeps
`errorData` undefined and every validation among them returns the empty
mapping, for arbitrary input; the short-circuit ends as soon as a forced
validation runs — it records an error state (possibly empty), after which
even non-forced validations evaluate the rules. -/
theorem error_reset_amended (s : PageState) (roles : List Role) :
    (openAddRoleHandler s).errorData = none ∧
    (openAddRuleHandler s).errorData = none ∧
    (∀ evts : List VEvent, (∀ e ∈ evts, nonForced e = true) →
      runV roles none evts = none ∧
      ∀ o ∈ runVOutputs roles none evts, o = []) ∧
    (∀ (data : Role) (rule : Rule),
      (vStep roles none (.vRole data true)).1 =
        some (computeRoleErrData roles data) ∧
      (vStep roles none (.vRule rule true)).1 =
        some (computeRuleErrData rule) ∧
      (∀ e : FormErrorData,
        (vStep roles (some e) (.vRole data false)).2 =
          computeRoleErrData roles data)) :=
  ⟨rfl, rfl, runV_nonForced roles,
    fun _ _ => ⟨rfl, rfl, fun _ => rfl⟩⟩

/-- Witness for C10 (amended): a concrete all-non-forced run with invalid
inputs, from the reset state. -/
theorem error_reset_amended_witness :
    (∀ e ∈ sampleEvents, nonForced e = true) ∧
    (runV [] none sampleEvents = none ∧
      ∀ o ∈ runVOutputs [] none sampleEvents, o = []) :=
  ⟨by decide, (error_reset_amended initialState []).2.2.1 sampleEvents (by decide)⟩

end RolesPage
